import Mathlib

/-!
Shallow embedding of the `POST /orders/raw` path of `src/server.js`
(Express + node-oracledb order-intake service), together with the
`withConn` scoped-connection helper and the `calcTotals` routine.

Modelling choices:
* JS numbers are modelled as exact rationals (`ℚ`); `Math.round` becomes
  `⌊x + 1/2⌋` (JS rounds halves toward +∞).
* JS field values are modelled by `JSVal`: `null`/`undefined` are merged
  into `vnull` (the handler only ever distinguishes them through `== null`,
  which both satisfy, and never applies `Number()` to either), numbers map
  to `vnum`, booleans to `vbool`.  String-valued fields are outside the
  embedding.  A field absent from the JSON body reads as `vnull`.
* The database is the committed state only: inserts run with
  `autoCommit:false`, so pending rows become visible exactly at
  `conn.commit()`, and a connection closed before commit rolls them back.
  Each round-trip to the engine can be made to throw by a `StepFaults`
  oracle carrying the engine's error message.
* The connection lifecycle is recorded as an event trace
  (`acquire`, `query _`, `close`) so the scoped-resource contract of
  `withConn` is observable.
-/

/-- A JavaScript value as used by the order-intake handler:
`vnull` covers both `null` and `undefined`. -/
inductive JSVal where
  | vnull
  | vnum (q : ℚ)
  | vbool (b : Bool)
deriving DecidableEq, Repr

namespace JSVal

/-- The `x == null` test (loose equality, true for `null` and `undefined`). -/
def isNull : JSVal → Bool
  | .vnull => true
  | _ => false

/-- JavaScript truthiness (`!x` is `!truthy x`): `null`, `undefined`,
`0` and `false` are falsy. -/
def truthy : JSVal → Bool
  | .vnull => false
  | .vnum q => decide (q ≠ 0)
  | .vbool b => b

/-- The `Number(x)` coercion on the modelled values.  The handler never
applies it to `vnull` (every use is guarded by `== null` or truthiness);
`Number(null) = 0` is taken for that unreached case. -/
def toNumber : JSVal → ℚ
  | .vnull => 0
  | .vnum q => q
  | .vbool b => if b then 1 else 0

end JSVal

open JSVal

/-- JS `Math.round`: rounds to the nearest integer, halves toward `+∞`
(the floor of `x + 1/2`). -/
def jsRound (x : ℚ) : ℤ := ⌊x + 1/2⌋

/-- `Math.round(x * 100) / 100`, the 2-decimal rounding used by `calcTotals`. -/
def round2 (x : ℚ) : ℚ := (jsRound (x * 100) : ℚ) / 100

/-- One element of the request's `lines` array (absent fields are `vnull`). -/
structure RawLine where
  prd_id : JSVal
  qty : JSVal
  unit_price : JSVal
  discount : JSVal
  comment_text : JSVal
  rating : JSVal
  shp_stat_id : JSVal
  seq : JSVal
deriving DecidableEq, Repr

/-- The request body of `POST /orders/raw`.  `lines = none` models a body
whose `lines` is missing or not an array (`!Array.isArray(lines)`). -/
structure RawBody where
  ord_id : JSVal
  order_date : JSVal
  usr_id : JSVal
  pay_stat_id : JSVal
  total_amount : JSVal
  total_discount : JSVal
  lines : Option (List RawLine)
deriving DecidableEq, Repr

/-- `Number(v ?? 0)`: nullish values count as `0`. -/
def numOrZero (v : JSVal) : ℚ := toNumber (if isNull v then JSVal.vnum 0 else v)

/-- `calcTotals(lines)` from `src/server.js`: sums `qty * unit_price` and
`discount` over the lines and rounds each sum (once) to 2 decimals. -/
def calcTotals (lines : List RawLine) : ℚ × ℚ :=
  let totalAmount := (lines.map (fun l => numOrZero l.qty * numOrZero l.unit_price)).sum
  let totalDiscount := (lines.map (fun l => numOrZero l.discount)).sum
  (round2 totalAmount, round2 totalDiscount)

/-- The top-level required-field test of the handler:
`ord_id == null || usr_id == null || pay_stat_id == null ||
!Array.isArray(lines) || lines.length === 0`. -/
def reqInvalid (b : RawBody) : Bool :=
  isNull b.ord_id || isNull b.usr_id || isNull b.pay_stat_id ||
    (match b.lines with
     | none => true
     | some ls => decide (ls.length = 0))

/-- Which of the four required inputs are actually missing from a body
(order key, user reference, payment-status reference, line list). -/
def missingReq (b : RawBody) : List Bool :=
  [isNull b.ord_id, isNull b.usr_id, isNull b.pay_stat_id,
    (match b.lines with
     | none => true
     | some ls => decide (ls.length = 0))]

/-- The lines array the handler iterates over (empty if absent — note the
handler only reaches this after `reqInvalid` ruled that case out). -/
def linesOf (b : RawBody) : List RawLine := b.lines.getD []

/-- The per-line check of the handler:
`!l.prd_id || l.qty == null || l.unit_price == null || !l.shp_stat_id`. -/
def lineInvalid (l : RawLine) : Bool :=
  !truthy l.prd_id || isNull l.qty || isNull l.unit_price || !truthy l.shp_stat_id

/-- The fixed 400 message for missing top-level fields. -/
def reqMsg : String := "ord_id, usr_id, pay_stat_id, lines[] are required"

/-- The 400 message naming the offending line index. -/
def lineMsg (i : Nat) : String :=
  "lines[" ++ toString i ++ "] must have prd_id, qty, unit_price, shp_stat_id"

/-- A committed `ORDERS` row.  `order_date = none` models the
`new Date()` default taken when the supplied `order_date` is falsy. -/
structure OrderRow where
  ord_id : ℚ
  order_date : Option JSVal
  total_amount : ℚ
  total_discount : ℚ
  usr_id : ℚ
  pay_stat_id : ℚ
deriving DecidableEq, Repr

/-- A committed `ORD_DTL` row; `seq = none` is the explicit NULL bind that
lets the database trigger `TRG_ORD_DTL_SEQ` assign the sequence number. -/
structure DtlRow where
  ord_id : ℚ
  seq : Option ℚ
  qty : ℚ
  unit_price : ℚ
  discount : ℚ
  comment_text : JSVal
  rating : JSVal
  prd_id : ℚ
  shp_stat_id : ℚ
deriving DecidableEq, Repr

/-- Committed database state: the two OLTP tables touched by the handler. -/
structure Db where
  orders : List OrderRow
  ordDtl : List DtlRow
deriving DecidableEq, Repr

/-- `SELECT 1 FROM ORDERS WHERE ORD_ID = :id` returns at least one row. -/
def keyExists (db : Db) (oid : ℚ) : Bool :=
  db.orders.any (fun o => decide (o.ord_id = oid))

/-- The `ORDERS` bind object of the header insert (lines 165–172). -/
def mkHeader (b : RawBody) (totalAmount totalDiscount : ℚ) : OrderRow :=
  { ord_id := toNumber b.ord_id
    order_date := if truthy b.order_date then some b.order_date else none
    total_amount := totalAmount
    total_discount := totalDiscount
    usr_id := toNumber b.usr_id
    pay_stat_id := toNumber b.pay_stat_id }

/-- One `ORD_DTL` bind object (lines 185–195): `seq` is passed through
`Number`-coerced when supplied and as an explicit NULL when nullish. -/
def mkBind (oid : ℚ) (l : RawLine) : DtlRow :=
  { ord_id := oid
    seq := if isNull l.seq then none else some (toNumber l.seq)
    qty := toNumber l.qty
    unit_price := toNumber l.unit_price
    discount := if isNull l.discount then 0 else toNumber l.discount
    comment_text := l.comment_text
    rating := l.rating
    prd_id := toNumber l.prd_id
    shp_stat_id := toNumber l.shp_stat_id }

/-- Fault oracle: for each engine round-trip, `some m` makes it throw an
error whose `.message` is `m`; `none` lets it succeed. -/
structure StepFaults where
  acquireFault : Option String
  selectFault : Option String
  headerFault : Option String
  linesFault : Option String
  commitFault : Option String
deriving DecidableEq, Repr

/-- All round-trips succeed. -/
def noFaults : StepFaults := ⟨none, none, none, none, none⟩

/-- The queries the order transaction can issue. -/
inductive QueryKind where
  | select
  | insertHeader
  | insertLines
  | commit
deriving DecidableEq, Repr

/-- Connection-lifecycle events observed during one request. -/
inductive Ev where
  | acquire
  | query (k : QueryKind)
  | close
deriving DecidableEq, Repr

/-- Outcome of the async function passed to `withConn`: a return value or
a thrown error message. -/
inductive FnOut (α : Type) where
  | ret (a : α)
  | exn (msg : String)
deriving DecidableEq, Repr

/-- The `withConn` helper of `src/server.js`: acquire a pooled connection
(or throw), run the body, and `finally` close the connection exactly once
(a failing `close` is swallowed).  The body is abstracted as the list of
queries it issues plus its outcome. -/
def withConnRun {α : Type} (acquireFault : Option String)
    (queries : List QueryKind) (out : FnOut α) : FnOut α × List Ev :=
  match acquireFault with
  | some m => (.exn m, [])
  | none => (out, Ev.acquire :: queries.map Ev.query ++ [Ev.close])

/-- The transactional body of the handler (lines 152–201), run against the
committed state `db`: duplicate pre-check, header insert, bulk line insert
(all with `autoCommit:false`), then commit.  Returns the body's outcome
(`true` = conflict), the committed state after the connection is released
(a throw before commit rolls every pending row back), and the queries
issued. -/
def ordersTx (f : StepFaults) (db : Db) (oid : ℚ) (hdr : OrderRow)
    (rows : List DtlRow) : FnOut Bool × Db × List QueryKind :=
  match f.selectFault with
  | some m => (.exn m, db, [.select])
  | none =>
    if keyExists db oid then
      (.ret true, db, [.select])
    else
      match f.headerFault with
      | some m => (.exn m, db, [.select, .insertHeader])
      | none =>
        match f.linesFault with
        | some m => (.exn m, db, [.select, .insertHeader, .insertLines])
        | none =>
          match f.commitFault with
          | some m => (.exn m, db, [.select, .insertHeader, .insertLines, .commit])
          | none =>
            (.ret false,
              ⟨db.orders ++ [hdr], db.ordDtl ++ rows⟩,
              [.select, .insertHeader, .insertLines, .commit])

/-- The four HTTP outcomes of `POST /orders/raw`.  `badRequest` carries
the 400 error string; `conflict` carries the offending order key (the
response is `409 {ok:false, error:"ORD_ID <key> already exists"}`);
`serverError` carries the underlying engine message verbatim; `ok` carries
the success payload `{ok:true, ord_id, total_amount, total_discount}`. -/
inductive HandlerResult where
  | badRequest (msg : String)
  | conflict (key : ℚ)
  | serverError (msg : String)
  | ok (ord_id total_amount total_discount : ℚ)
deriving DecidableEq, Repr

/-- HTTP status code of each outcome. -/
def statusOf : HandlerResult → Nat
  | .badRequest _ => 400
  | .conflict _ => 409
  | .serverError _ => 500
  | .ok _ _ _ => 200

/-- The resolved total amount (lines 142–145): the supplied value,
`Number`-coerced, when present; the computed one otherwise. -/
def resolvedAmount (b : RawBody) : ℚ :=
  if isNull b.total_amount then (calcTotals (linesOf b)).1
  else toNumber b.total_amount

/-- The resolved total discount (lines 146–149). -/
def resolvedDiscount (b : RawBody) : ℚ :=
  if isNull b.total_discount then (calcTotals (linesOf b)).2
  else toNumber b.total_discount

/-- The storage stage of the handler (the `try { withConn(...) }` block
and the mapping of its outcome to an HTTP response, lines 151–217): run
the transaction under `withConn`, then map a throw to a 500 with the
underlying message, a conflict to a 409 carrying the key, and success to
the 200 payload.  When acquisition itself fails the transaction never ran,
so the committed state is the prior one. -/
def ordersStore (f : StepFaults) (db : Db) (oid : ℚ) (hdr : OrderRow)
    (rows : List DtlRow) (totalAmount totalDiscount : ℚ) :
    HandlerResult × Db × List Ev :=
  let t := ordersTx f db oid hdr rows
  match withConnRun f.acquireFault t.2.2 t.1 with
  | (.exn m, tr) =>
      (.serverError m, if f.acquireFault = none then t.2.1 else db, tr)
  | (.ret true, tr) => (.conflict oid, t.2.1, tr)
  | (.ret false, tr) => (.ok oid totalAmount totalDiscount, t.2.1, tr)

/-- The `POST /orders/raw` handler (lines 114–218 of `src/server.js`):
validation, totals resolution, then the guarded transactional insert via
`withConn`.  Returns the HTTP outcome, the committed database state, and
the connection-event trace. -/
def ordersRaw (f : StepFaults) (db : Db) (b : RawBody) :
    HandlerResult × Db × List Ev :=
  if reqInvalid b then
    (.badRequest reqMsg, db, [])
  else
    match (linesOf b).findIdx? lineInvalid with
    | some i => (.badRequest (lineMsg i), db, [])
    | none =>
      let oid := toNumber b.ord_id
      ordersStore f db oid (mkHeader b (resolvedAmount b) (resolvedDiscount b))
        ((linesOf b).map (mkBind oid)) (resolvedAmount b) (resolvedDiscount b)

/-! ## Concrete request bodies used by witnesses and counterexamples -/

/-- A fully valid line: product 5, quantity 2 at unit price 10. -/
def exLine : RawLine :=
  { prd_id := .vnum 5, qty := .vnum 2, unit_price := .vnum 10,
    discount := .vnull, comment_text := .vnull, rating := .vnull,
    shp_stat_id := .vnum 2, seq := .vnull }

/-- A fully valid body with one line and no explicit totals. -/
def exBody : RawBody :=
  { ord_id := .vnum 1, order_date := .vnull, usr_id := .vnum 7,
    pay_stat_id := .vnum 2, total_amount := .vnull, total_discount := .vnull,
    lines := some [exLine] }

/-- A valid line with quantity 3 at unit price 0.105 (= 21/200). -/
def fracLine : RawLine :=
  { prd_id := .vnum 5, qty := .vnum 3, unit_price := .vnum (21/200),
    discount := .vnull, comment_text := .vnull, rating := .vnull,
    shp_stat_id := .vnum 2, seq := .vnull }

/-- A valid body around `fracLine`, no explicit totals. -/
def fracBody : RawBody :=
  { ord_id := .vnum 2, order_date := .vnull, usr_id := .vnum 7,
    pay_stat_id := .vnum 2, total_amount := .vnull, total_discount := .vnull,
    lines := some [fracLine] }

/-- A valid body supplying an explicit total amount of 999 (the computed
total would be 20), with the total discount left to be computed. -/
def suppBody : RawBody :=
  { ord_id := .vnum 3, order_date := .vnull, usr_id := .vnum 7,
    pay_stat_id := .vnum 2, total_amount := .vnum 999,
    total_discount := .vnull, lines := some [exLine] }

/-- A body missing only the user reference. -/
def missUsrBody : RawBody :=
  { ord_id := .vnum 1, order_date := .vnull, usr_id := .vnull,
    pay_stat_id := .vnum 3, total_amount := .vnull, total_discount := .vnull,
    lines := some [exLine] }

/-- A body missing only the order key. -/
def missOrdBody : RawBody :=
  { ord_id := .vnull, order_date := .vnull, usr_id := .vnum 2,
    pay_stat_id := .vnum 3, total_amount := .vnull, total_discount := .vnull,
    lines := some [exLine] }

/-- A line in which every one of the four checked fields is present
(non-null) but the product reference is the number 0. -/
def zeroPrdLine : RawLine :=
  { prd_id := .vnum 0, qty := .vnum 1, unit_price := .vnum 1,
    discount := .vnum 0, comment_text := .vnull, rating := .vnull,
    shp_stat_id := .vnum 1, seq := .vnull }

/-- A body whose single line is `zeroPrdLine` (top-level fields valid). -/
def zeroPrdBody : RawBody :=
  { ord_id := .vnum 4, order_date := .vnull, usr_id := .vnum 7,
    pay_stat_id := .vnum 2, total_amount := .vnull, total_discount := .vnull,
    lines := some [zeroPrdLine] }

/-- The engine message of an Oracle primary-key constraint violation. -/
def oraMsg : String := "ORA-00001: unique constraint (ADMINDB.SYS_C007) violated"

/-- A fault oracle in which only the header insert throws, with the
unique-constraint message — the race case where a concurrent writer
committed the key between the pre-check and the insert. -/
def pkFaults : StepFaults := ⟨none, none, some oraMsg, none, none⟩

/-- A valid line supplying the explicit sequence number 5. -/
def seqLine : RawLine :=
  { prd_id := .vnum 9, qty := .vnum 1, unit_price := .vnum 2,
    discount := .vnull, comment_text := .vnull, rating := .vnull,
    shp_stat_id := .vnum 1, seq := .vnum 5 }

/-- A valid line supplying no sequence number. -/
def noSeqLine : RawLine :=
  { prd_id := .vnum 8, qty := .vnum 1, unit_price := .vnum 2,
    discount := .vnull, comment_text := .vnull, rating := .vnull,
    shp_stat_id := .vnum 1, seq := .vnull }

/-- A valid body with one line carrying `seq = 5` and one without. -/
def seqBody : RawBody :=
  { ord_id := .vnum 6, order_date := .vnull, usr_id := .vnum 7,
    pay_stat_id := .vnum 2, total_amount := .vnull, total_discount := .vnull,
    lines := some [seqLine, noSeqLine] }

/-! ## Helper lemmas -/

/-- The transaction either leaves the committed state unchanged, or returns
`ret false` (success) and appends exactly the header and the line rows. -/
lemma ordersTx_cases (f : StepFaults) (db : Db) (oid : ℚ) (hdr : OrderRow)
    (rows : List DtlRow) :
    ((ordersTx f db oid hdr rows).1 ≠ FnOut.ret false ∧
      (ordersTx f db oid hdr rows).2.1 = db) ∨
    ((ordersTx f db oid hdr rows).1 = FnOut.ret false ∧
      (ordersTx f db oid hdr rows).2.1 =
        ⟨db.orders ++ [hdr], db.ordDtl ++ rows⟩) := by
  rcases f with ⟨af, sf, hf, lf, cf⟩
  rcases sf with _ | m
  · by_cases hk : keyExists db oid
    · simp [ordersTx, hk]
    · rcases hf with _ | m
      · rcases lf with _ | m
        · rcases cf with _ | m
          · simp [ordersTx, hk]
          · simp [ordersTx, hk]
        · simp [ordersTx, hk]
      · simp [ordersTx, hk]
  · simp [ordersTx]

/-- A failed `getConnection` yields a 500 with the thrown message, with no
committed change and no connection event. -/
lemma ordersStore_acquireFault (f : StepFaults) (m : String)
    (h : f.acquireFault = some m) (db : Db) (oid : ℚ) (hdr : OrderRow)
    (rows : List DtlRow) (A D : ℚ) :
    ordersStore f db oid hdr rows A D = (.serverError m, db, []) := by
  simp [ordersStore, withConnRun, h]

/-- The storage stage either reports success having appended exactly the
header and the line rows, or reports a non-success outcome leaving the
committed state unchanged. -/
lemma ordersStore_cases (f : StepFaults) (db : Db) (oid : ℚ) (hdr : OrderRow)
    (rows : List DtlRow) (A D : ℚ) :
    ((ordersStore f db oid hdr rows A D).1 = .ok oid A D ∧
      (ordersStore f db oid hdr rows A D).2.1 =
        ⟨db.orders ++ [hdr], db.ordDtl ++ rows⟩) ∨
    ((∀ k a d, (ordersStore f db oid hdr rows A D).1 ≠ .ok k a d) ∧
      (ordersStore f db oid hdr rows A D).2.1 = db) := by
  rcases haf : f.acquireFault with _ | m
  · rcases ordersTx_cases f db oid hdr rows with ⟨h1, h2⟩ | ⟨h1, h2⟩
    · right
      rcases hx : (ordersTx f db oid hdr rows).1 with a | m2
      · cases a
        · rw [hx] at h1; exact absurd rfl h1
        · simp [ordersStore, withConnRun, haf, hx, h2]
      · simp [ordersStore, withConnRun, haf, hx, h2]
    · left
      simp [ordersStore, withConnRun, haf, h1, h2]
  · right
    simp [ordersStore, withConnRun, haf]

/-- A fault-free run on a fresh key succeeds, appends the header and line
rows, and issues select, header insert, line insert and commit on one
scoped connection. -/
lemma ordersStore_noFaults (db : Db) (oid : ℚ) (hdr : OrderRow)
    (rows : List DtlRow) (A D : ℚ) (h : keyExists db oid = false) :
    ordersStore noFaults db oid hdr rows A D =
      (.ok oid A D, ⟨db.orders ++ [hdr], db.ordDtl ++ rows⟩,
        [Ev.acquire, .query .select, .query .insertHeader,
          .query .insertLines, .query .commit, Ev.close]) := by
  simp [ordersStore, ordersTx, withConnRun, noFaults, h]

/-- When the pre-check finds the key, the stage reports the conflict with
no committed change; only the select ran before the connection closed. -/
lemma ordersStore_conflict (f : StepFaults) (haf : f.acquireFault = none)
    (hsf : f.selectFault = none) (db : Db) (oid : ℚ) (hdr : OrderRow)
    (rows : List DtlRow) (A D : ℚ) (hk : keyExists db oid = true) :
    ordersStore f db oid hdr rows A D =
      (.conflict oid, db, [Ev.acquire, .query .select, Ev.close]) := by
  simp [ordersStore, ordersTx, withConnRun, haf, hsf, hk]

/-- A throw at the header insert (in particular an `ORA-00001` unique
constraint violation) surfaces as a 500 carrying the engine message, with
no committed change. -/
lemma ordersStore_headerFault (f : StepFaults) (m : String)
    (haf : f.acquireFault = none) (hsf : f.selectFault = none)
    (hhf : f.headerFault = some m) (db : Db) (oid : ℚ) (hdr : OrderRow)
    (rows : List DtlRow) (A D : ℚ) (hk : keyExists db oid = false) :
    ordersStore f db oid hdr rows A D =
      (.serverError m, db,
        [Ev.acquire, .query .select, .query .insertHeader, Ev.close]) := by
  simp [ordersStore, ordersTx, withConnRun, haf, hsf, hhf, hk]

/-- On a body that passes both validation steps the handler is exactly the
storage stage applied to the resolved totals and bind rows. -/
lemma ordersRaw_valid (f : StepFaults) (db : Db) (b : RawBody)
    (h1 : reqInvalid b = false)
    (h2 : (linesOf b).findIdx? lineInvalid = none) :
    ordersRaw f db b = ordersStore f db (toNumber b.ord_id)
      (mkHeader b (resolvedAmount b) (resolvedDiscount b))
      ((linesOf b).map (mkBind (toNumber b.ord_id)))
      (resolvedAmount b) (resolvedDiscount b) := by
  simp [ordersRaw, h1, h2]

/-- The storage stage never yields a 400: its outcomes are only 500, 409
or the success payload. -/
lemma ordersStore_ne_badRequest (f : StepFaults) (db : Db) (oid : ℚ)
    (hdr : OrderRow) (rows : List DtlRow) (A D : ℚ) (m : String) :
    (ordersStore f db oid hdr rows A D).1 ≠ .badRequest m := by
  rcases haf : f.acquireFault with _ | m2
  · rcases hx : (ordersTx f db oid hdr rows).1 with a | m3
    · cases a
      · simp [ordersStore, withConnRun, haf, hx]
      · simp [ordersStore, withConnRun, haf, hx]
    · simp [ordersStore, withConnRun, haf, hx]
  · simp [ordersStore, withConnRun, haf]

/-! ## Claim theorems -/

/-- C1: order creation is atomic.  On a success outcome the committed
state gains exactly one header row (with the returned totals) and all `N`
bound line rows; on every other outcome — validation failure, conflict,
or a throw at the pre-check, header insert, bulk line insert or commit —
the committed state is exactly the prior one.  The second conjunct
records that the bound line rows are in bijection with the submitted
lines (`N` of them). -/
theorem ordersRaw_atomic (f : StepFaults) (db : Db) (b : RawBody) :
    ((ordersRaw f db b).2.1 =
      match (ordersRaw f db b).1 with
      | .ok k a d =>
          { orders := db.orders ++ [mkHeader b a d]
            ordDtl := db.ordDtl ++ (linesOf b).map (mkBind k) }
      | _ => db) ∧
    ((linesOf b).map (mkBind (toNumber b.ord_id))).length = (linesOf b).length := by
  refine ⟨?_, by simp⟩
  rcases hreq : reqInvalid b with _ | _
  · rcases hidx : (linesOf b).findIdx? lineInvalid with _ | i
    · rw [ordersRaw_valid f db b hreq hidx]
      rcases ordersStore_cases f db (toNumber b.ord_id)
          (mkHeader b (resolvedAmount b) (resolvedDiscount b))
          ((linesOf b).map (mkBind (toNumber b.ord_id)))
          (resolvedAmount b) (resolvedDiscount b) with ⟨h1, h2⟩ | ⟨h1, h2⟩
      · rw [h1, h2]
      · rw [h2]
        rcases hr : (ordersStore f db (toNumber b.ord_id)
            (mkHeader b (resolvedAmount b) (resolvedDiscount b))
            ((linesOf b).map (mkBind (toNumber b.ord_id)))
            (resolvedAmount b) (resolvedDiscount b)).1 with m | k | m | ⟨k, a, d⟩
        · rfl
        · rfl
        · rfl
        · exact absurd hr (h1 k a d)
    · simp [ordersRaw, hreq, hidx]
  · simp [ordersRaw, hreq]

/-- C9: the scoped-resource contract of `withConn`.  First conjunct: for
every acquisition outcome and every body (its queries and its outcome,
normal return or throw), the event trace is either empty (acquisition
failed, so nothing to release) or exactly one `acquire`, then the body's
queries only, then exactly one `close` — the connection is acquired
before any query and released exactly once on every exit path.  Second
conjunct: the trace of every `POST /orders/raw` request has that same
shape. -/
theorem withConn_scoped :
    (∀ (α : Type) (af : Option String) (qs : List QueryKind) (out : FnOut α),
      (withConnRun af qs out).2 = [] ∨
        (withConnRun af qs out).2 = Ev.acquire :: qs.map Ev.query ++ [Ev.close]) ∧
    (∀ (f : StepFaults) (db : Db) (b : RawBody),
      (ordersRaw f db b).2.2 = [] ∨
        ∃ qs : List QueryKind,
          (ordersRaw f db b).2.2 = Ev.acquire :: qs.map Ev.query ++ [Ev.close]) := by
  constructor
  · intro α af qs out
    rcases af with _ | m
    · right; simp [withConnRun]
    · left; simp [withConnRun]
  · intro f db b
    rcases hreq : reqInvalid b with _ | _
    · rcases hidx : (linesOf b).findIdx? lineInvalid with _ | i
      · rw [ordersRaw_valid f db b hreq hidx]
        rcases haf : f.acquireFault with _ | m
        · right
          refine ⟨(ordersTx f db (toNumber b.ord_id)
            (mkHeader b (resolvedAmount b) (resolvedDiscount b))
            ((linesOf b).map (mkBind (toNumber b.ord_id)))).2.2, ?_⟩
          rcases hx : (ordersTx f db (toNumber b.ord_id)
              (mkHeader b (resolvedAmount b) (resolvedDiscount b))
              ((linesOf b).map (mkBind (toNumber b.ord_id)))).1 with a | m
          · cases a
            · simp [ordersStore, withConnRun, haf, hx]
            · simp [ordersStore, withConnRun, haf, hx]
          · simp [ordersStore, withConnRun, haf, hx]
        · left
          simp [ordersStore, withConnRun, haf]
      · left; simp [ordersRaw, hreq, hidx]
    · left; simp [ordersRaw, hreq]

/-- C2: a submission whose order key already exists at the pre-check
writes nothing and yields the 409 conflict carrying the key; on a fresh
key the first fault-free submission succeeds and a sequential resubmission
of the same body yields the 409 conflict with the committed state left
exactly as the first submission made it. -/
theorem ordersRaw_duplicate_conflict (db : Db) (b : RawBody)
    (hreq : reqInvalid b = false)
    (hidx : (linesOf b).findIdx? lineInvalid = none) :
    (keyExists db (toNumber b.ord_id) = true →
      ordersRaw noFaults db b =
        (.conflict (toNumber b.ord_id), db, [Ev.acquire, .query .select, Ev.close]) ∧
      statusOf (ordersRaw noFaults db b).1 = 409) ∧
    (keyExists db (toNumber b.ord_id) = false →
      (ordersRaw noFaults db b).1 =
        .ok (toNumber b.ord_id) (resolvedAmount b) (resolvedDiscount b) ∧
      (ordersRaw noFaults (ordersRaw noFaults db b).2.1 b).1 =
        .conflict (toNumber b.ord_id) ∧
      (ordersRaw noFaults (ordersRaw noFaults db b).2.1 b).2.1 =
        (ordersRaw noFaults db b).2.1 ∧
      statusOf (ordersRaw noFaults (ordersRaw noFaults db b).2.1 b).1 = 409) := by
  constructor
  · intro hk
    have h := ordersStore_conflict noFaults rfl rfl db (toNumber b.ord_id)
      (mkHeader b (resolvedAmount b) (resolvedDiscount b))
      ((linesOf b).map (mkBind (toNumber b.ord_id)))
      (resolvedAmount b) (resolvedDiscount b) hk
    rw [ordersRaw_valid _ _ _ hreq hidx]
    exact ⟨h, by rw [h]; rfl⟩
  · intro hk
    have h1 := ordersStore_noFaults db (toNumber b.ord_id)
      (mkHeader b (resolvedAmount b) (resolvedDiscount b))
      ((linesOf b).map (mkBind (toNumber b.ord_id)))
      (resolvedAmount b) (resolvedDiscount b) hk
    have hdb1 : (ordersRaw noFaults db b).2.1 =
        ⟨db.orders ++ [mkHeader b (resolvedAmount b) (resolvedDiscount b)],
          db.ordDtl ++ (linesOf b).map (mkBind (toNumber b.ord_id))⟩ := by
      rw [ordersRaw_valid _ _ _ hreq hidx, h1]
    have hk2 : keyExists (ordersRaw noFaults db b).2.1 (toNumber b.ord_id) = true := by
      rw [hdb1]
      simp [keyExists, mkHeader]
    have h2 := ordersStore_conflict noFaults rfl rfl (ordersRaw noFaults db b).2.1
      (toNumber b.ord_id)
      (mkHeader b (resolvedAmount b) (resolvedDiscount b))
      ((linesOf b).map (mkBind (toNumber b.ord_id)))
      (resolvedAmount b) (resolvedDiscount b) hk2
    refine ⟨?_, ?_, ?_, ?_⟩
    · rw [ordersRaw_valid _ _ _ hreq hidx, h1]
    · rw [ordersRaw_valid _ _ _ hreq hidx, h2]
    · rw [ordersRaw_valid noFaults (ordersRaw noFaults db b).2.1 b hreq hidx, h2]
    · rw [ordersRaw_valid noFaults (ordersRaw noFaults db b).2.1 b hreq hidx, h2]
      rfl

/-- Witness for C2 at a concrete input: on an empty database the first
submission of `exBody` succeeds and the immediate resubmission yields the
409 conflict carrying order key 1. -/
theorem ordersRaw_duplicate_conflict_witness :
    (ordersRaw noFaults ⟨[], []⟩ exBody).1 = .ok 1 20 0 ∧
    (ordersRaw noFaults (ordersRaw noFaults ⟨[], []⟩ exBody).2.1 exBody).1 =
      .conflict 1 ∧
    statusOf (ordersRaw noFaults (ordersRaw noFaults ⟨[], []⟩ exBody).2.1 exBody).1 = 409 := by
  have h := (ordersRaw_duplicate_conflict ⟨[], []⟩ exBody (by decide) (by decide)).2
    (by decide)
  refine ⟨?_, ?_, h.2.2.2⟩
  · rw [h.1]
    norm_num [exBody, exLine, linesOf, toNumber, isNull, resolvedAmount,
      resolvedDiscount, calcTotals, numOrZero, round2, jsRound]
  · rw [h.2.1]
    norm_num [exBody, toNumber]

/-- C3: when no explicit totals are supplied, a successful submission
returns as total amount the sum over lines of `qty * unit_price` rounded
once to 2 decimals (half toward `+∞`), and as total discount the sum of
the per-line discounts (a nullish discount counting as 0) rounded once to
2 decimals — the rounding is applied to each sum, not per line. -/
theorem ordersRaw_totals_computed (db : Db) (b : RawBody)
    (hreq : reqInvalid b = false)
    (hidx : (linesOf b).findIdx? lineInvalid = none)
    (hA : isNull b.total_amount = true)
    (hD : isNull b.total_discount = true)
    (hk : keyExists db (toNumber b.ord_id) = false) :
    (ordersRaw noFaults db b).1 =
      .ok (toNumber b.ord_id)
        (round2 (((linesOf b).map
          (fun l => numOrZero l.qty * numOrZero l.unit_price)).sum))
        (round2 (((linesOf b).map (fun l => numOrZero l.discount)).sum)) := by
  rw [ordersRaw_valid _ _ _ hreq hidx, ordersStore_noFaults _ _ _ _ _ _ hk]
  simp [resolvedAmount, resolvedDiscount, hA, hD, calcTotals]

/-- Witness for C3: quantity 3 at unit price 0.105 contributes 0.315
unrounded and the aggregate rounds to 0.32 (= 8/25). -/
theorem ordersRaw_totals_computed_witness :
    (ordersRaw noFaults ⟨[], []⟩ fracBody).1 = .ok 2 (8/25) 0 ∧
    (8 : ℚ)/25 = 32/100 := by
  refine ⟨?_, by norm_num⟩
  have h := ordersRaw_totals_computed ⟨[], []⟩ fracBody (by decide) (by decide)
    rfl rfl (by decide)
  rw [h]
  norm_num [fracBody, fracLine, linesOf, numOrZero, toNumber, isNull,
    round2, jsRound]

/-- C4: the returned totals are the supplied values verbatim
(`Number`-coerced) whenever supplied, with no reconciliation against the
computed sums, and the computed value exactly when not supplied. -/
theorem ordersRaw_totals_supplied (db : Db) (b : RawBody)
    (hreq : reqInvalid b = false)
    (hidx : (linesOf b).findIdx? lineInvalid = none)
    (hk : keyExists db (toNumber b.ord_id) = false) :
    (ordersRaw noFaults db b).1 =
      .ok (toNumber b.ord_id)
        (if isNull b.total_amount then (calcTotals (linesOf b)).1
          else toNumber b.total_amount)
        (if isNull b.total_discount then (calcTotals (linesOf b)).2
          else toNumber b.total_discount) := by
  rw [ordersRaw_valid _ _ _ hreq hidx, ordersStore_noFaults _ _ _ _ _ _ hk]
  rfl

/-- Witness for C4: the supplied total 999 is returned verbatim although
the computed total is 20 ≠ 999, and the unsupplied discount is computed. -/
theorem ordersRaw_totals_supplied_witness :
    (ordersRaw noFaults ⟨[], []⟩ suppBody).1 = .ok 3 999 0 ∧
    (calcTotals (linesOf suppBody)).1 = 20 ∧ (999 : ℚ) ≠ 20 := by
  refine ⟨?_, ?_, by norm_num⟩
  · have h := ordersRaw_totals_supplied ⟨[], []⟩ suppBody (by decide) (by decide)
      (by decide)
    rw [h]
    norm_num [suppBody, exLine, linesOf, calcTotals, numOrZero, toNumber,
      isNull, round2, jsRound]
  · norm_num [suppBody, exLine, linesOf, calcTotals, numOrZero, toNumber,
      isNull, round2, jsRound]

/-- Counterexample for C5: two requests with different sets of missing
required fields (one missing only the user reference, the other only the
order key) are both rejected with the very same fixed error message, so
the 400 message cannot enumerate the missing required fields — it lists
all four required fields regardless of which are missing. -/
theorem ordersRaw_message_not_enumerating_cex :
    missingReq missUsrBody ≠ missingReq missOrdBody ∧
    ordersRaw noFaults ⟨[], []⟩ missUsrBody =
      (.badRequest reqMsg, ⟨[], []⟩, []) ∧
    ordersRaw noFaults ⟨[], []⟩ missOrdBody =
      (.badRequest reqMsg, ⟨[], []⟩, []) := by
  refine ⟨by decide, ?_, ?_⟩
  · simp [ordersRaw, reqInvalid, missUsrBody, isNull]
  · simp [ordersRaw, reqInvalid, missOrdBody, isNull]

/-- C5 (amended): whenever the order key, user reference or
payment-status reference is nullish, or the line list is missing or
empty, the request is rejected with a 400 whose error message is the
fixed string naming all four required fields, with no storage interaction
at all: no connection event occurs and the committed state is unchanged —
for every fault oracle, i.e. independently of the storage layer. -/
theorem ordersRaw_missing_fields_fixed_message (f : StepFaults) (db : Db)
    (b : RawBody) (h : reqInvalid b = true) :
    ordersRaw f db b = (.badRequest reqMsg, db, []) ∧
    statusOf (ordersRaw f db b).1 = 400 := by
  refine ⟨by simp [ordersRaw, h], ?_⟩
  simp [ordersRaw, h, statusOf]

/-- Witness for the amended C5 at a concrete input. -/
theorem ordersRaw_missing_fields_fixed_message_witness :
    ordersRaw noFaults ⟨[], []⟩ missOrdBody =
      (.badRequest reqMsg, ⟨[], []⟩, []) ∧
    statusOf (ordersRaw noFaults ⟨[], []⟩ missOrdBody).1 = 400 :=
  ordersRaw_missing_fields_fixed_message noFaults ⟨[], []⟩ missOrdBody (by decide)

/-- Counterexample for C6: a request whose line 0 has all four checked
fields present (none is null/absent) is nevertheless rejected with the
400 naming line 0, because `prd_id = 0` fails the truthiness test — so
"rejected iff the line is missing one of the four fields" is false. -/
theorem ordersRaw_line_zero_rejected_cex :
    isNull zeroPrdLine.prd_id = false ∧ isNull zeroPrdLine.qty = false ∧
    isNull zeroPrdLine.unit_price = false ∧
    isNull zeroPrdLine.shp_stat_id = false ∧
    (ordersRaw noFaults ⟨[], []⟩ zeroPrdBody).1 = .badRequest (lineMsg 0) := by
  refine ⟨rfl, rfl, rfl, rfl, ?_⟩
  have hreq : reqInvalid zeroPrdBody = false := by decide
  have hidx : (linesOf zeroPrdBody).findIdx? lineInvalid = some 0 := by decide
  simp [ordersRaw, hreq, hidx]

/-- C6 (amended): after the top-level check passes, the request is
rejected with the 400 naming line index `i` exactly when `i` is the first
line whose product reference or shipment-status reference is falsy
(absent, null, `0` or `false`) or whose quantity or unit price is
null/absent; the rejection writes no rows and touches no connection, and
when no line fails the check no line-naming 400 is produced. -/
theorem ordersRaw_line_check_characterization (f : StepFaults) (db : Db)
    (b : RawBody) (h : reqInvalid b = false) :
    (∀ i : Nat, (linesOf b).findIdx? lineInvalid = some i →
      ordersRaw f db b = (.badRequest (lineMsg i), db, []) ∧
      statusOf (ordersRaw f db b).1 = 400) ∧
    ((linesOf b).findIdx? lineInvalid = none →
      ∀ i : Nat, (ordersRaw f db b).1 ≠ .badRequest (lineMsg i)) := by
  constructor
  · intro i hi
    refine ⟨by simp [ordersRaw, h, hi], ?_⟩
    simp [ordersRaw, h, hi, statusOf]
  · intro hnone i
    rw [ordersRaw_valid _ _ _ h hnone]
    exact ordersStore_ne_badRequest _ _ _ _ _ _ _ _

/-- Witness for the amended C6: `zeroPrdBody` has first offending line 0
and is rejected with the 400 naming line 0. -/
theorem ordersRaw_line_check_characterization_witness :
    ordersRaw noFaults ⟨[], []⟩ zeroPrdBody =
      (.badRequest (lineMsg 0), ⟨[], []⟩, []) ∧
    statusOf (ordersRaw noFaults ⟨[], []⟩ zeroPrdBody).1 = 400 :=
  (ordersRaw_line_check_characterization noFaults ⟨[], []⟩ zeroPrdBody
    (by decide)).1 0 (by decide)

/-- Counterexample for C7: a primary-key constraint violation thrown by
the header insert is surfaced as the generic 500 storage failure carrying
the raw engine message, not as the 409 Conflict outcome. -/
theorem ordersRaw_pk_violation_500_cex :
    (ordersRaw pkFaults ⟨[], []⟩ exBody).1 = .serverError oraMsg ∧
    statusOf (ordersRaw pkFaults ⟨[], []⟩ exBody).1 = 500 ∧
    statusOf (ordersRaw pkFaults ⟨[], []⟩ exBody).1 ≠ 409 := by
  have h := ordersStore_headerFault pkFaults oraMsg rfl rfl rfl ⟨[], []⟩
    (toNumber exBody.ord_id)
    (mkHeader exBody (resolvedAmount exBody) (resolvedDiscount exBody))
    ((linesOf exBody).map (mkBind (toNumber exBody.ord_id)))
    (resolvedAmount exBody) (resolvedDiscount exBody) (by decide)
  have hv := ordersRaw_valid pkFaults ⟨[], []⟩ exBody (by decide) (by decide)
  rw [hv, h]
  exact ⟨rfl, rfl, by decide⟩

/-- C7 (amended): a throw at the header insert — in particular the
`ORA-00001` unique-constraint violation of the race case — is surfaced as
a generic 500 storage failure carrying the engine's message verbatim,
with no committed rows; only the pre-check path produces the Conflict
outcome. -/
theorem ordersRaw_header_fault_generic_500 (f : StepFaults) (db : Db)
    (b : RawBody) (m : String)
    (hreq : reqInvalid b = false)
    (hidx : (linesOf b).findIdx? lineInvalid = none)
    (hk : keyExists db (toNumber b.ord_id) = false)
    (haf : f.acquireFault = none) (hsf : f.selectFault = none)
    (hhf : f.headerFault = some m) :
    ordersRaw f db b = (.serverError m, db,
      [Ev.acquire, .query .select, .query .insertHeader, Ev.close]) ∧
    statusOf (ordersRaw f db b).1 = 500 := by
  have h := ordersStore_headerFault f m haf hsf hhf db (toNumber b.ord_id)
    (mkHeader b (resolvedAmount b) (resolvedDiscount b))
    ((linesOf b).map (mkBind (toNumber b.ord_id)))
    (resolvedAmount b) (resolvedDiscount b) hk
  rw [ordersRaw_valid _ _ _ hreq hidx]
  exact ⟨h, by rw [h]; rfl⟩

/-- Witness for the amended C7 at a concrete input. -/
theorem ordersRaw_header_fault_generic_500_witness :
    ordersRaw pkFaults ⟨[], []⟩ exBody = (.serverError oraMsg, ⟨[], []⟩,
      [Ev.acquire, .query .select, .query .insertHeader, Ev.close]) ∧
    statusOf (ordersRaw pkFaults ⟨[], []⟩ exBody).1 = 500 :=
  ordersRaw_header_fault_generic_500 pkFaults ⟨[], []⟩ exBody oraMsg
    (by decide) (by decide) (by decide) rfl rfl rfl

/-- C8: on a successful submission the persisted line rows are exactly
the submitted lines in order, each carrying the supplied sequence number
`Number`-coerced when present and the explicit NULL absence-marker when
nullish — the handler never computes a sequence value of its own (every
other field is likewise the coerced passthrough shown). -/
theorem ordersRaw_seq_passthrough (db : Db) (b : RawBody)
    (hreq : reqInvalid b = false)
    (hidx : (linesOf b).findIdx? lineInvalid = none)
    (hk : keyExists db (toNumber b.ord_id) = false) :
    (ordersRaw noFaults db b).2.1.ordDtl =
      db.ordDtl ++ (linesOf b).map (fun l =>
        { ord_id := toNumber b.ord_id
          seq := if isNull l.seq then none else some (toNumber l.seq)
          qty := toNumber l.qty
          unit_price := toNumber l.unit_price
          discount := if isNull l.discount then 0 else toNumber l.discount
          comment_text := l.comment_text
          rating := l.rating
          prd_id := toNumber l.prd_id
          shp_stat_id := toNumber l.shp_stat_id }) := by
  rw [ordersRaw_valid _ _ _ hreq hidx, ordersStore_noFaults _ _ _ _ _ _ hk]
  rfl

/-- Witness for C8: the supplied sequence 5 is persisted unchanged and
the absent one is persisted as the NULL marker. -/
theorem ordersRaw_seq_passthrough_witness :
    (ordersRaw noFaults ⟨[], []⟩ seqBody).2.1.ordDtl =
      [⟨6, some 5, 1, 2, 0, .vnull, .vnull, 9, 1⟩,
        ⟨6, none, 1, 2, 0, .vnull, .vnull, 8, 1⟩] := by
  have h := ordersRaw_seq_passthrough ⟨[], []⟩ seqBody (by decide) (by decide)
    (by decide)
  rw [h]
  norm_num [seqBody, seqLine, noSeqLine, linesOf, toNumber, isNull]

/-- C10: the per-line checks on product reference and shipment-status
reference are truthiness tests: a present-but-falsy value (such as the
number 0) makes the line offending and the whole request is rejected with
the 400 naming the first such line, with no rows written and no storage
touched; quantity and unit price are only tested against null, so a line
with `qty = 0` and `unit_price = 0` but truthy references passes. -/
theorem ordersRaw_falsy_refs_rejected :
    (∀ l : RawLine,
      ((isNull l.prd_id = false ∧ truthy l.prd_id = false) ∨
        (isNull l.shp_stat_id = false ∧ truthy l.shp_stat_id = false)) →
      lineInvalid l = true) ∧
    (∀ l : RawLine, l.qty = JSVal.vnum 0 → l.unit_price = JSVal.vnum 0 →
      truthy l.prd_id = true → truthy l.shp_stat_id = true →
      lineInvalid l = false) ∧
    (∀ (f : StepFaults) (db : Db) (b : RawBody) (i : Nat),
      reqInvalid b = false → (linesOf b).findIdx? lineInvalid = some i →
      ordersRaw f db b = (.badRequest (lineMsg i), db, []) ∧
      statusOf (ordersRaw f db b).1 = 400) := by
  refine ⟨?_, ?_, ?_⟩
  · intro l h
    rcases h with ⟨h1, h2⟩ | ⟨h1, h2⟩ <;> simp [lineInvalid, h2]
  · intro l hq hu hp hs
    simp [lineInvalid, hq, hu, hp, hs, isNull]
  · intro f db b i h1 h2
    exact ⟨by simp [ordersRaw, h1, h2], by simp [ordersRaw, h1, h2, statusOf]⟩

/-- Witness for C10: the line with `prd_id = 0` (present, falsy) is
offending and its request is rejected naming line 0. -/
theorem ordersRaw_falsy_refs_rejected_witness :
    lineInvalid zeroPrdLine = true ∧
    ordersRaw noFaults ⟨[], []⟩ zeroPrdBody =
      (.badRequest (lineMsg 0), ⟨[], []⟩, []) := by
  constructor
  · exact ordersRaw_falsy_refs_rejected.1 zeroPrdLine (Or.inl ⟨rfl, by decide⟩)
  · exact (ordersRaw_falsy_refs_rejected.2.2 noFaults ⟨[], []⟩ zeroPrdBody 0
      (by decide) (by decide)).1
